import Mathlib

/-!
Shallow embedding of `src/gwincc/__init__.py` (the gwincc window manager core):
the `Rect`/`Monitor` geometry engine, the `Window` identity model, the
`WindowState`/`WindowStateStore` state store, and the background discovery
loop (`BackgroundService._loop`, `GetWindowsBackgroundService2._run`).

Modelling conventions:
- Python exceptions are modelled by `Except PyError`; a `.error` value means
  the corresponding Python code raises and the exception propagates.
- Python floats are modelled by exact rationals `ℚ`.  The only float
  operations in the source are `width * ratio`, `width_delta / aspect` and
  half-integer gap computations; on every concrete input appearing in the
  claims the float result is exact, so the rational model agrees with CPython
  there.
- Python's builtin `int()` on a float truncates toward zero; this is `pyInt`.
- The dict `WindowStateStore.store` uses `Window.__hash__`/`Window.__eq__`,
  which depend only on `hwnd`; the dict is modelled as an insertion-ordered
  association list whose key comparison is `hwnd` equality.
-/

namespace Gwincc

/-- The Python exceptions that the embedded code can raise. -/
inductive PyError where
  /-- `NotImplementedError`, raised by `Window.__eq__` on a non-`Window`. -/
  | notImplementedError
  /-- `ZeroDivisionError`, raised by `Rect.wh_ratio` when the height is 0. -/
  | zeroDivisionError
  /-- `psutil.NoSuchProcess` (or any failure resolving process metadata). -/
  | noSuchProcess
  /-- A `win32` API error (e.g. the enumeration call itself failing). -/
  | osError
deriving DecidableEq, Repr

/-- Python's builtin `int()` applied to an exact numeric value:
truncation toward zero (`Int.tdiv` is T-division). -/
def pyInt (q : ℚ) : Int := q.num.tdiv q.den

/-- `Rect`: axis-aligned rectangle in screen coordinates (source lines 67-92). -/
structure Rect where
  left : Int
  top : Int
  right : Int
  bottom : Int
deriving DecidableEq, Repr

/-- `Rect.width`: `self.right - self.left`. -/
def Rect.width (r : Rect) : Int := r.right - r.left

/-- `Rect.height`: `self.bottom - self.top`. -/
def Rect.height (r : Rect) : Int := r.bottom - r.top

/-- `Rect.wh_ratio`: `self.width() / self.height()`.  Python true division of
two ints raises `ZeroDivisionError` when the divisor is 0 and otherwise
returns the exact quotient (modelled in `ℚ`). -/
def Rect.aspect (r : Rect) : Except PyError ℚ :=
  if r.height = 0 then .error .zeroDivisionError
  else .ok ((r.width : ℚ) / (r.height : ℚ))

/-- `Monitor`: the work area of the monitor hosting a window (source lines
95-106).  `Monitor.from_hwnd` is an OS query; its result is supplied to the
geometry operations as an argument. -/
structure Monitor where
  work : Rect
deriving DecidableEq, Repr

/-- `Window` (source lines 109-167).  The `proc` field holds a live
`psutil.Process` handle in the source; it is modelled by the process id it
wraps, since no embedded operation reads anything else from it. -/
structure Window where
  pid : Int
  proc : Int
  hwnd : Int
  title : String
  process_created_at : ℚ
deriving DecidableEq, Repr

/-- An arbitrary Python value, as far as `Window.__eq__` can observe it:
either a `Window` or something that is not a `Window`. -/
inductive PyObject where
  | window (w : Window)
  | other (descr : String)

/-- `Window.__eq__` (source lines 120-124): raises `NotImplementedError` when
`value` is not a `Window`, otherwise compares `hwnd` only. -/
def Window.eqPy (self : Window) (value : PyObject) : Except PyError Bool :=
  match value with
  | .window v => .ok (decide (self.hwnd = v.hwnd))
  | .other _ => .error .notImplementedError

/-- 2^64, the modulus of CPython's `Py_uhash_t` arithmetic. -/
def U64 : Nat := 18446744073709551616

/-- `_PyHASH_XXPRIME_1`. -/
def xxPrime1 : Nat := 11400714785074694791

/-- `_PyHASH_XXPRIME_2`. -/
def xxPrime2 : Nat := 14029467366897019727

/-- `_PyHASH_XXPRIME_5`. -/
def xxPrime5 : Nat := 2870177450012600261

/-- `_PyHASH_XXROTATE`: rotate a 64-bit word left by 31. -/
def rotl31 (x : Nat) : Nat := ((x <<< 31) % U64) ||| ((x % U64) >>> 33)

/-- CPython's `hash` of an `int`: the value reduced modulo `2^61 - 1`
preserving sign, with the reserved value `-1` mapped to `-2`. -/
def pyHashInt (n : Int) : Int :=
  let m : Int := 2305843009213693951
  let h : Int := if n < 0 then -((-n) % m) else n % m
  if h = -1 then -2 else h

/-- CPython's `hash` of a 1-tuple whose element has hash `h0`
(`tuplehash`, the xxHash-based combiner). -/
def pyHashTuple1 (h0 : Int) : Int :=
  let lane : Nat := (h0 % (U64 : Int)).toNat
  let acc : Nat := (xxPrime5 + lane * xxPrime2) % U64
  let acc : Nat := rotl31 acc
  let acc : Nat := (acc * xxPrime1) % U64
  let acc : Nat := (acc + ((1 : Nat) ^^^ (xxPrime5 ^^^ 3527539))) % U64
  if acc = U64 - 1 then 1546275796
  else if acc < 9223372036854775808 then (acc : Int)
  else (acc : Int) - (U64 : Int)

/-- `Window.__hash__` (source lines 117-118): `hash((self.hwnd,))`. -/
def Window.hashPy (w : Window) : Int := pyHashTuple1 (pyHashInt w.hwnd)

/-- `Window._resize_move_to_center_of_rect` (source lines 136-154): the
arguments `(left, top, width, height)` passed to the single atomic
`win32gui.MoveWindow` call.  `left_gap`/`top_gap` are Python float divisions
by 2 (exact), and `int(...)` truncates the sums toward zero. -/
def resize_move_to_center_of_rect (monitor_rect : Rect) (width height : Int) :
    Int × Int × Int × Int :=
  let left_gap : ℚ := ((monitor_rect.width : ℚ) - (width : ℚ)) / 2
  let top_gap : ℚ := ((monitor_rect.height : ℚ) - (height : ℚ)) / 2
  let left := pyInt ((monitor_rect.left : ℚ) + left_gap)
  let top := pyInt ((monitor_rect.top : ℚ) + top_gap)
  (left, top, width, height)

/-- `Window.center` (source lines 126-134), with the monitor work area
(an OS query in the source) supplied as an argument and the fill `r`
(default `0.8`) as an exact rational.  Returns the `MoveWindow` arguments
`(left, top, width, height)`. -/
def center_op (work : Rect) (r : ℚ) : Int × Int × Int × Int :=
  let width := pyInt ((work.width : ℚ) * r)
  let height := pyInt ((work.height : ℚ) * r)
  resize_move_to_center_of_rect work width height

/-- The centering computation as §4.1 of the spec words it: target
width/height are `r * work.width/height` with integer truncation, and the
top-left corner is `work.left + (work.width - target_width)/2`,
`work.top + (work.height - target_height)/2` with integer truncation.
Returned in the same component order as `center_op`. -/
def center_target_spec (work : Rect) (r : ℚ) : Int × Int × Int × Int :=
  let tw := pyInt (r * (work.width : ℚ))
  let th := pyInt (r * (work.height : ℚ))
  let l := pyInt ((work.left : ℚ) + ((work.width : ℚ) - (tw : ℚ)) / 2)
  let t := pyInt ((work.top : ℚ) + ((work.height : ℚ) - (th : ℚ)) / 2)
  (l, t, tw, th)

/-- `Window.resize` (source lines 156-167), with the OS geometry queries
(`Monitor.from_hwnd`, `win32gui.GetWindowRect`) supplied as arguments.
`height_delta = int(width_delta / rect.wh_ratio())`; the `ZeroDivisionError`
from `wh_ratio` on a zero-height rect propagates, and so does the
`ZeroDivisionError` that Python's `width_delta / 0.0` raises when the rect
has width 0 (so `wh_ratio()` returned `0.0`).  Returns the `MoveWindow`
arguments `(left, top, width, height)`. -/
def resize_op (work : Rect) (rect : Rect) (width_delta : Int) :
    Except PyError (Int × Int × Int × Int) :=
  match rect.aspect with
  | .error e => .error e
  | .ok a =>
    if a = 0 then .error .zeroDivisionError
    else
      let height_delta := pyInt ((width_delta : ℚ) / a)
      .ok (resize_move_to_center_of_rect work
        (rect.width + width_delta) (rect.height + height_delta))

/-- The handler of the "bigger" button in `main` (source lines 327-329):
it calls `window.resize(width_delta=10)` with no surrounding `try`, so an
`.error` result is an exception reaching the consumer loop. -/
def ui_bigger_action (work : Rect) (rect : Rect) :
    Except PyError (Int × Int × Int × Int) :=
  resize_op work rect 10

/-- `WindowState` (source lines 170-179): mutable per-window UI state with
dataclass defaults `selected=False`, `pinned_at=None`. -/
structure WindowState where
  selected : Bool
  pinned_at : Option ℚ
deriving DecidableEq, Repr

/-- The dataclass default `WindowState()`. -/
def WindowState.default : WindowState := ⟨false, none⟩

/-- `WindowStateStore.store`: a dict keyed by `Window` under
`__hash__`/`__eq__`, i.e. by `hwnd`; modelled as an insertion-ordered
association list. -/
abbrev Store := List (Window × WindowState)

/-- Lookup in the dict: the first (and, in a real dict, only) entry whose
key has the given window's `hwnd`. -/
def Store.lookup (s : Store) (k : Window) : Option WindowState :=
  match List.find? (fun p => p.1.hwnd == k.hwnd) s with
  | some p => some p.2
  | none => none

/-- `WindowStateStore.__getitem__` (source lines 188-189):
`self.store.setdefault(key, WindowState())`.  Returns the state for `key`,
inserting a fresh default at the end first when the key is absent; the
second component is the store after the call. -/
def Store.getitem (s : Store) (k : Window) : WindowState × Store :=
  match List.find? (fun p => p.1.hwnd == k.hwnd) s with
  | some p => (p.2, s)
  | none => (WindowState.default, s ++ [(k, WindowState.default)])

/-- Mutating, through the aliased `WindowState` object returned by
`__getitem__`, the state stored under `k` (e.g. `state.pin()` in `main`):
in the dict model this overwrites the value at every entry whose key is
identity-equal to `k`. -/
def Store.mutate (s : Store) (k : Window) (st : WindowState) : Store :=
  s.map (fun p => if p.1.hwnd == k.hwnd then (p.1, st) else p)

/-- Python's `window in windows` membership test on a list of `Window`s:
`Window.__eq__`, i.e. `hwnd` equality, against some element. -/
def winMem (w : Window) (ws : List Window) : Bool :=
  ws.any (fun x => x.hwnd == w.hwnd)

/-- `WindowStateStore.purge` (source lines 191-197): rebuild the store
keeping exactly the entries whose key is in `windows`. -/
def Store.purge (s : Store) (windows : List Window) : Store :=
  s.filter (fun p => winMem p.1 windows)

instance {ε α : Type} [DecidableEq ε] [DecidableEq α] :
    DecidableEq (Except ε α) := fun a b =>
  match a, b with
  | .error e, .error f =>
    if h : e = f then .isTrue (congrArg Except.error h)
    else .isFalse (fun hh => h (Except.error.inj hh))
  | .error _, .ok _ => .isFalse (fun hh => Except.noConfusion hh)
  | .ok _, .error _ => .isFalse (fun hh => Except.noConfusion hh)
  | .ok x, .ok y =>
    if h : x = y then .isTrue (congrArg Except.ok h)
    else .isFalse (fun hh => h (Except.ok.inj hh))

/-- One top-level window handle as delivered by `win32gui.EnumWindows`
together with the results of the per-handle OS queries made by
`enum_windows_callback` (source lines 209-240).  `proc` is the outcome of
resolving the process metadata (`psutil.Process(pid)` and
`proc.create_time()`): `.error` means that resolution raises. -/
structure RawWindow where
  hwnd : Int
  visible : Bool
  title : String
  owner : Int
  pid : Int
  proc : Except PyError ℚ
deriving DecidableEq, Repr

/-- `enum_windows_callback` (source lines 209-240) on one handle:
`.ok none` means the handle is filtered out, `.ok (some w)` means `w` is
appended to the cycle's list, `.error e` means the callback raises `e`. -/
def enum_callback (selfPid : Int) (r : RawWindow) :
    Except PyError (Option Window) :=
  if !r.visible then .ok none
  else if r.title = "" then .ok none
  else if r.owner ≠ 0 then .ok none
  else if r.pid = selfPid then .ok none
  else match r.proc with
    | .error e => .error e
    | .ok ct => .ok (some ⟨r.pid, r.pid, r.hwnd, r.title, ct⟩)

/-- `win32gui.EnumWindows(enum_windows_callback, None)` over a cycle's
handles (source line 242): handles are visited in order; a callback that
raises halts the enumeration and the exception propagates out of
`EnumWindows`, so `GetWindowsBackgroundService2._run` publishes no list
that cycle. -/
def run_enum (selfPid : Int) : List RawWindow → Except PyError (List Window)
  | [] => .ok []
  | r :: rs =>
    match enum_callback selfPid r with
    | .error e => .error e
    | .ok none => run_enum selfPid rs
    | .ok (some w) =>
      match run_enum selfPid rs with
      | .error e => .error e
      | .ok ws => .ok (w :: ws)

/-- How `BackgroundService._loop` (source lines 31-34) can end. -/
inductive LoopExit where
  /-- `_run` returned `True` (the cancellation wait was signalled), or the
  `while` guard saw the cancellation event set: the loop exits normally. -/
  | cancelled
  /-- an exception escaped `_run`; `_loop` has no handler, so it propagates
  and the polling thread dies. -/
  | crashed (e : PyError)
deriving DecidableEq, Repr

/-- `BackgroundService._loop` (source lines 31-34), run against a script of
per-cycle `_run` outcomes: `.ok false` = poll completed and the 1-second
wait timed out, `.ok true` = cancellation observed (loop breaks), `.error e`
= the cycle raised `e`.  `none` means the script ran out with the loop
still polling. -/
def loop_run : List (Except PyError Bool) → Option LoopExit
  | [] => none
  | c :: cs =>
    match c with
    | .error e => some (.crashed e)
    | .ok true => some .cancelled
    | .ok false => loop_run cs

/-! Helper lemmas about `pyInt` (Python `int()` truncation). -/

/-- On nonnegative values Python `int()` agrees with the floor. -/
theorem pyInt_eq_floor (q : ℚ) (h : 0 ≤ q) : pyInt q = ⌊q⌋ := by
  unfold pyInt
  rw [Rat.floor_def]
  exact Int.tdiv_eq_ediv (Rat.num_nonneg.mpr h) (Int.ofNat_nonneg q.den)

/-- On negative values Python `int()` agrees with the ceiling. -/
theorem pyInt_eq_ceil (q : ℚ) (h : q < 0) : pyInt q = ⌈q⌉ := by
  have h1 : pyInt q = -pyInt (-q) := by
    unfold pyInt
    rw [Rat.num_neg_eq_neg_num, Rat.den_neg_eq_den, Int.neg_tdiv, neg_neg]
  rw [h1, pyInt_eq_floor (-q) (by linarith), ← Int.ceil_neg, neg_neg]

theorem floor_le_pyInt (q : ℚ) : ⌊q⌋ ≤ pyInt q := by
  rcases le_or_lt 0 q with h | h
  · rw [pyInt_eq_floor q h]
  · rw [pyInt_eq_ceil q h]
    exact Int.floor_le_ceil q

theorem pyInt_le_ceil (q : ℚ) : pyInt q ≤ ⌈q⌉ := by
  rcases le_or_lt 0 q with h | h
  · rw [pyInt_eq_floor q h]
    exact Int.floor_le_ceil q
  · rw [pyInt_eq_ceil q h]

/-- Evaluation rule for `pyInt` on a nonnegative value. -/
theorem pyInt_eq_of_nonneg (q : ℚ) (z : ℤ) (h0 : 0 ≤ q) (h1 : (z : ℚ) ≤ q)
    (h2 : q < z + 1) : pyInt q = z := by
  rw [pyInt_eq_floor q h0]
  exact Int.floor_eq_iff.mpr ⟨h1, h2⟩

/-- Evaluation rule for `pyInt` on a negative value. -/
theorem pyInt_eq_of_neg (q : ℚ) (z : ℤ) (h0 : q < 0) (h1 : (z : ℚ) - 1 < q)
    (h2 : q ≤ (z : ℚ)) : pyInt q = z := by
  rw [pyInt_eq_ceil q h0]
  exact Int.ceil_eq_iff.mpr ⟨h1, h2⟩

/-- The four `MoveWindow` arguments produced by
`resize_move_to_center_of_rect`, spelled out. -/
theorem rmtc_components (m : Rect) (w h : Int) :
    resize_move_to_center_of_rect m w h
      = (pyInt ((m.left : ℚ) + ((m.width : ℚ) - (w : ℚ)) / 2),
         pyInt ((m.top : ℚ) + ((m.height : ℚ) - (h : ℚ)) / 2), w, h) := rfl

/-- The four `MoveWindow` arguments produced by `center_op`, spelled out. -/
theorem center_op_components (work : Rect) (f : ℚ) :
    center_op work f
      = (pyInt ((work.left : ℚ)
            + ((work.width : ℚ) - ((pyInt ((work.width : ℚ) * f) : Int) : ℚ)) / 2),
         pyInt ((work.top : ℚ)
            + ((work.height : ℚ) - ((pyInt ((work.height : ℚ) * f) : Int) : ℚ)) / 2),
         pyInt ((work.width : ℚ) * f), pyInt ((work.height : ℚ) * f)) := rfl

/-- `resize_op` on a rect whose aspect query succeeds with a nonzero ratio
(Python's `width_delta / 0.0` would raise). -/
theorem resize_op_of_aspect (work rect : Rect) (wd : Int) (a : ℚ)
    (ha : rect.aspect = .ok a) (ha0 : a ≠ 0) :
    resize_op work rect wd
      = .ok (resize_move_to_center_of_rect work (rect.width + wd)
          (rect.height + pyInt ((wd : ℚ) / a))) := by
  rw [resize_op, ha]
  dsimp only
  rw [if_neg ha0]

/-- A zero-width (but nonzero-height) rect makes `wh_ratio()` return `0.0`,
and the division `width_delta / 0.0` inside `resize` raises
`ZeroDivisionError`. -/
theorem resize_zero_width_raises (work rect : Rect) (wd : Int)
    (hh : rect.height ≠ 0) (hw : rect.width = 0) :
    resize_op work rect wd = .error .zeroDivisionError := by
  have ha : rect.aspect = .ok 0 := by
    simp [Rect.aspect, hh, hw]
  rw [resize_op, ha]
  simp

/-! Helper lemmas about the store model. -/

theorem find?_append_of_none {p : Window × WindowState → Bool} (s : Store)
    (x : Window × WindowState) (hs : List.find? p s = none) (hx : p x = true) :
    List.find? p (s ++ [x]) = some x := by
  induction s with
  | nil => simp [List.find?_cons, hx]
  | cons a as ih =>
    rw [List.find?_cons] at hs
    cases hpa : p a with
    | true => rw [hpa] at hs; exact absurd hs (by simp)
    | false =>
      rw [hpa] at hs
      rw [List.cons_append, List.find?_cons, hpa]
      exact ih hs

theorem find?_mutate (s : Store) (k : Window) (st : WindowState) :
    List.find? (fun p => p.1.hwnd == k.hwnd) (Store.mutate s k st)
      = (List.find? (fun p => p.1.hwnd == k.hwnd) s).map (fun p => (p.1, st)) := by
  induction s with
  | nil => rfl
  | cons a as ih =>
    cases hpa : (a.1.hwnd == k.hwnd) with
    | true =>
      rw [Store.mutate, List.map_cons, if_pos hpa]
      rw [List.find?_cons_of_pos _ (by exact hpa),
        List.find?_cons_of_pos _ (by simpa using hpa)]
      rfl
    | false =>
      rw [Store.mutate, List.map_cons, if_neg (by simp [hpa])]
      rw [List.find?_cons_of_neg _ (by simp [hpa]),
        List.find?_cons_of_neg _ (by simpa using hpa)]
      exact ih

/-! The claims. -/

/-- Claim C1: for any two constructed `Window` values `a` and `b`,
`a == b` holds iff `a.hwnd == b.hwnd`, regardless of the other fields
(which are universally quantified here), and equal windows have equal
hashes, so equal-`hwnd` windows are interchangeable for map/set purposes. -/
theorem window_identity (a b : Window) :
    (a.eqPy (.window b) = .ok true ↔ a.hwnd = b.hwnd)
    ∧ (a.hwnd = b.hwnd → a.hashPy = b.hashPy) := by
  constructor
  · unfold Window.eqPy
    constructor
    · intro h
      exact of_decide_eq_true (Except.ok.inj h)
    · intro h
      rw [h]
      simp
  · intro h
    unfold Window.hashPy
    rw [h]

/-- Witness for C1 at concrete windows sharing `hwnd = 42` but differing in
every descriptive field. -/
theorem window_identity_witness :
    Window.eqPy ⟨1, 1, 42, "left", 0⟩ (.window ⟨2, 2, 42, "right", 5⟩) = .ok true
    ∧ Window.hashPy ⟨1, 1, 42, "left", 0⟩ = Window.hashPy ⟨2, 2, 42, "right", 5⟩ :=
  ⟨(window_identity ⟨1, 1, 42, "left", 0⟩ ⟨2, 2, 42, "right", 5⟩).1.mpr rfl,
   (window_identity ⟨1, 1, 42, "left", 0⟩ ⟨2, 2, 42, "right", 5⟩).2 rfl⟩

/-- Claim C9: comparing a `Window` for equality against a non-`Window` value
raises (`NotImplementedError`) rather than returning a boolean. -/
theorem window_eq_non_window_raises (w : Window) (d : String) :
    w.eqPy (.other d) = .error .notImplementedError := rfl

/-- Claim C4: the centering computation produces target size
`trunc(ratio * work.width/height)` and top-left
`trunc(work.left + (work.width - target_width)/2)` (and mutatis mutandis for
the top), i.e. it coincides with the spec formula `center_target_spec`; in
particular on `work = Rect(0,0,1920,1200)` and ratio `0.8` it yields size
`(1536, 960)` and top-left `(192, 120)`. -/
theorem center_correct :
    (∀ work fill, center_op work fill = center_target_spec work fill)
    ∧ center_op ⟨0, 0, 1920, 1200⟩ (4/5) = (192, 120, 1536, 960) := by
  constructor
  · intro work fill
    simp only [center_op, center_target_spec, resize_move_to_center_of_rect]
    rw [mul_comm ((work.width : ℚ)) fill, mul_comm ((work.height : ℚ)) fill]
  · rw [center_op_components]
    have e1 : pyInt (((⟨0, 0, 1920, 1200⟩ : Rect).width : ℚ) * (4/5)) = 1536 :=
      pyInt_eq_of_nonneg _ _ (by norm_num [Rect.width]) (by norm_num [Rect.width])
        (by norm_num [Rect.width])
    have e2 : pyInt (((⟨0, 0, 1920, 1200⟩ : Rect).height : ℚ) * (4/5)) = 960 :=
      pyInt_eq_of_nonneg _ _ (by norm_num [Rect.height]) (by norm_num [Rect.height])
        (by norm_num [Rect.height])
    rw [e1, e2]
    have e3 : pyInt (((⟨0, 0, 1920, 1200⟩ : Rect).left : ℚ)
        + (((⟨0, 0, 1920, 1200⟩ : Rect).width : ℚ) - ((1536 : Int) : ℚ)) / 2) = 192 :=
      pyInt_eq_of_nonneg _ _ (by norm_num [Rect.width]) (by norm_num [Rect.width])
        (by norm_num [Rect.width])
    have e4 : pyInt (((⟨0, 0, 1920, 1200⟩ : Rect).top : ℚ)
        + (((⟨0, 0, 1920, 1200⟩ : Rect).height : ℚ) - ((960 : Int) : ℚ)) / 2) = 120 :=
      pyInt_eq_of_nonneg _ _ (by norm_num [Rect.height]) (by norm_num [Rect.height])
        (by norm_num [Rect.height])
    rw [e3, e4]

/-- Claim C2: on a never-seen window `__getitem__` returns a fresh default
state (`selected = false`, `pinned_at = none`) and never fails (it is a total
function); any later lookup with a window of equal `hwnd` returns the same
state without changing the store, and a mutation made through the returned
state is visible through later lookups with any equal-identity window. -/
theorem store_getitem_spec (s : Store) (w w' : Window) (h : w'.hwnd = w.hwnd) :
    (Store.lookup s w = none → (Store.getitem s w).1 = WindowState.default)
    ∧ (Store.getitem (Store.getitem s w).2 w').1 = (Store.getitem s w).1
    ∧ (Store.getitem (Store.getitem s w).2 w').2 = (Store.getitem s w).2
    ∧ ∀ st, (Store.getitem (Store.mutate (Store.getitem s w).2 w st) w').1 = st := by
  simp only [Store.getitem, Store.lookup, h]
  cases hf : List.find? (fun p => p.1.hwnd == w.hwnd) s with
  | some p =>
    refine ⟨fun hl => Option.noConfusion hl, ?_, ?_, fun st => ?_⟩
    · dsimp only
      rw [hf]
    · dsimp only
      rw [hf]
    · dsimp only
      rw [find?_mutate, hf]
      rfl
  | none =>
    have hx : (fun p : Window × WindowState => p.1.hwnd == w.hwnd)
        (w, WindowState.default) = true := by simp
    have happ := find?_append_of_none s (w, WindowState.default) hf hx
    refine ⟨fun _ => rfl, ?_, ?_, fun st => ?_⟩
    · dsimp only
      rw [happ]
    · dsimp only
      rw [happ]
    · dsimp only
      rw [find?_mutate, happ]
      rfl

/-- Witness for C2: starting from the empty store, inserting under one window
and mutating its state, then reading through a different window with the same
`hwnd`, yields the mutated state. -/
theorem store_getitem_witness :
    (Store.getitem
        (Store.mutate (Store.getitem ([] : Store) ⟨1, 1, 5, "a", 0⟩).2
          ⟨1, 1, 5, "a", 0⟩ ⟨true, some 3⟩)
        ⟨2, 2, 5, "b", 1⟩).1 = ⟨true, some 3⟩ :=
  (store_getitem_spec [] ⟨1, 1, 5, "a", 0⟩ ⟨2, 2, 5, "b", 1⟩ rfl).2.2.2 ⟨true, some 3⟩

/-- Claim C3: after `purge`, every key of the store is (identity-)contained
in the supplied live list, and every entry whose key was in the live list
survives with its state unchanged. -/
theorem purge_spec (s : Store) (ws : List Window) :
    (∀ p ∈ Store.purge s ws, winMem p.1 ws = true)
    ∧ ∀ p ∈ s, winMem p.1 ws = true → p ∈ Store.purge s ws := by
  constructor
  · intro p hp
    exact (List.mem_filter.mp hp).2
  · intro p hp hm
    exact List.mem_filter.mpr ⟨hp, hm⟩

/-- Witness for C3: a two-entry store purged against a live list holding a
same-`hwnd` (but otherwise different) window keeps the matching entry with
its state intact. -/
theorem purge_witness :
    (⟨⟨1, 1, 5, "a", 0⟩, ⟨true, some 3⟩⟩ : Window × WindowState)
      ∈ Store.purge [⟨⟨1, 1, 5, "a", 0⟩, ⟨true, some 3⟩⟩,
          ⟨⟨2, 2, 6, "b", 0⟩, ⟨false, none⟩⟩] [⟨9, 9, 5, "z", 2⟩] :=
  (purge_spec [⟨⟨1, 1, 5, "a", 0⟩, ⟨true, some 3⟩⟩,
      ⟨⟨2, 2, 6, "b", 0⟩, ⟨false, none⟩⟩] [⟨9, 9, 5, "z", 2⟩]).2
    ⟨⟨1, 1, 5, "a", 0⟩, ⟨true, some 3⟩⟩ (List.mem_cons_self _ _) (by decide)

/-- Counterexample to claim C5 as stated: with a current rect of width 300
and height 100 (aspect 3) and `width_delta = -10`, the code computes
`height_delta = int(-10 / 3) = -3` (truncation toward zero), so the new
height is 97, whereas `floor(-10 / 3) = -4` would give 96. -/
theorem resize_floor_counterexample :
    resize_op ⟨0, 0, 1920, 1200⟩ ⟨0, 0, 300, 100⟩ (-10) = .ok (815, 551, 290, 97)
    ∧ (97 : Int) ≠ 100 + ⌊((-10 : ℚ) / ((300 : ℚ) / 100))⌋ := by
  constructor
  · rw [resize_op_of_aspect _ _ _ 3 (by norm_num [Rect.aspect, Rect.width, Rect.height])
      (by norm_num), rmtc_components]
    have hd : pyInt (((-10 : Int) : ℚ) / 3) = -3 :=
      pyInt_eq_of_neg _ _ (by norm_num) (by norm_num) (by norm_num)
    rw [hd]
    have e1 : pyInt ((815 : ℚ)) = 815 :=
      pyInt_eq_of_nonneg _ _ (by norm_num) (by norm_num) (by norm_num)
    have e2 : pyInt ((1103 : ℚ) / 2) = 551 :=
      pyInt_eq_of_nonneg _ _ (by norm_num) (by norm_num) (by norm_num)
    norm_num [Rect.width, Rect.height, Rect.left, Rect.top, e1, e2]
  · have hfl : ⌊((-10 : ℚ) / ((300 : ℚ) / 100))⌋ = -4 := by
      rw [show ((-10 : ℚ) / ((300 : ℚ) / 100)) = -10 / 3 by norm_num, Rat.floor_def]
      norm_num
    rw [hfl]
    norm_num

/-- Claim C5 (amended): for a current rect with nonzero height and nonzero
width (a zero width makes `wh_ratio()` return `0.0` and the division raise),
the resize operation computes `height_delta` as `width_delta / aspect_ratio`
truncated toward zero (which agrees with the floor whenever the quotient is
nonnegative) and the new size is `(width + width_delta, height +
height_delta)`; in particular for width 1000, height 500 and
`width_delta = 10` the delta is 5 and the new size is `(1010, 505)`. -/
theorem resize_amended (work rect : Rect) (wd : Int) (h : rect.height ≠ 0)
    (hw : rect.width ≠ 0) :
    resize_op work rect wd
      = .ok (resize_move_to_center_of_rect work (rect.width + wd)
          (rect.height + pyInt ((wd : ℚ) / ((rect.width : ℚ) / (rect.height : ℚ)))))
    ∧ (0 ≤ (wd : ℚ) / ((rect.width : ℚ) / (rect.height : ℚ)) →
        pyInt ((wd : ℚ) / ((rect.width : ℚ) / (rect.height : ℚ)))
          = ⌊(wd : ℚ) / ((rect.width : ℚ) / (rect.height : ℚ))⌋)
    ∧ resize_op ⟨0, 0, 1920, 1200⟩ ⟨0, 0, 1000, 500⟩ 10 = .ok (455, 347, 1010, 505) := by
  have ha0 : ((rect.width : ℚ) / (rect.height : ℚ)) ≠ 0 :=
    div_ne_zero (by exact_mod_cast hw) (by exact_mod_cast h)
  refine ⟨resize_op_of_aspect work rect wd _ (by simp [Rect.aspect, h]) ha0,
    fun hq => pyInt_eq_floor _ hq, ?_⟩
  rw [resize_op_of_aspect _ _ _ 2 (by norm_num [Rect.aspect, Rect.width, Rect.height])
    (by norm_num), rmtc_components]
  have hd : pyInt (((10 : Int) : ℚ) / 2) = 5 :=
    pyInt_eq_of_nonneg _ _ (by norm_num) (by norm_num) (by norm_num)
  rw [hd]
  have e1 : pyInt ((455 : ℚ)) = 455 :=
    pyInt_eq_of_nonneg _ _ (by norm_num) (by norm_num) (by norm_num)
  have e2 : pyInt ((695 : ℚ) / 2) = 347 :=
    pyInt_eq_of_nonneg _ _ (by norm_num) (by norm_num) (by norm_num)
  norm_num [Rect.width, Rect.height, Rect.left, Rect.top, e1, e2]

/-- Witness for C5 (amended) at the spec's own concrete instance. -/
theorem resize_amended_witness :
    resize_op ⟨0, 0, 1920, 1200⟩ ⟨0, 0, 1000, 500⟩ 10 = .ok (455, 347, 1010, 505) :=
  (resize_amended ⟨0, 0, 1920, 1200⟩ ⟨0, 0, 1000, 500⟩ 10 (by decide) (by decide)).2.2

/-- Counterexample to claim C6 as stated: with one resolvable window followed
by one whose process metadata resolution raises, the poll does not publish
the surviving window; it aborts with the error. -/
theorem enum_skip_counterexample :
    run_enum 1 [⟨100, true, "a", 0, 2, .ok 0⟩,
        ⟨200, true, "b", 0, 3, .error .noSuchProcess⟩]
      = .error .noSuchProcess
    ∧ run_enum 1 [⟨100, true, "a", 0, 2, .ok 0⟩,
        ⟨200, true, "b", 0, 3, .error .noSuchProcess⟩]
      ≠ .ok [⟨2, 2, 100, "a", 0⟩] :=
  ⟨rfl, by decide⟩

/-- Claim C6 (amended): a per-window process-resolution failure propagates
out of the enumeration callback, aborting the whole poll cycle: whatever
windows already survived the filters, the cycle's result is the error, and
no window list is produced. -/
theorem enum_error_aborts (selfPid : Int) (gs : List RawWindow) (r : RawWindow)
    (rs : List RawWindow) (e : PyError)
    (hg : ∀ g ∈ gs, ∀ e', enum_callback selfPid g ≠ .error e')
    (hr : enum_callback selfPid r = .error e) :
    run_enum selfPid (gs ++ r :: rs) = .error e := by
  induction gs with
  | nil =>
    rw [List.nil_append, run_enum, hr]
  | cons g gs ih =>
    have hg' : ∀ x ∈ gs, ∀ e', enum_callback selfPid x ≠ .error e' :=
      fun x hx => hg x (List.mem_cons_of_mem _ hx)
    have ihh := ih hg'
    rw [List.cons_append, run_enum]
    cases hcb : enum_callback selfPid g with
    | error e' => exact absurd hcb (hg g (List.mem_cons_self _ _) e')
    | ok o =>
      cases o with
      | none => exact ihh
      | some w =>
        dsimp only
        rw [ihh]

/-- Witness for C6 (amended): a concrete two-window cycle whose second
window's process has exited aborts with `NoSuchProcess`. -/
theorem enum_error_aborts_witness :
    run_enum 7 [⟨101, true, "ok", 0, 2, .ok 1⟩,
        ⟨202, true, "gone", 0, 4, .error .noSuchProcess⟩]
      = .error .noSuchProcess := by
  have hg : ∀ g ∈ [(⟨101, true, "ok", 0, 2, .ok 1⟩ : RawWindow)],
      ∀ e', enum_callback 7 g ≠ .error e' := by
    intro g hgm e' hcb
    rw [List.mem_singleton] at hgm
    subst hgm
    exact Except.noConfusion
      ((rfl : enum_callback 7 ⟨101, true, "ok", 0, 2, .ok 1⟩
          = .ok (some ⟨2, 2, 101, "ok", 1⟩)).symm.trans hcb)
  exact enum_error_aborts 7 [⟨101, true, "ok", 0, 2, .ok 1⟩]
    ⟨202, true, "gone", 0, 4, .error .noSuchProcess⟩ [] .noSuchProcess hg rfl

/-- Counterexample to claim C7 as stated: no `GeometryQueryError` exists in
the code; resizing a zero-height window raises `ZeroDivisionError`, and the
consumer loop's button handler (which wraps the call in no `try`) receives
the exception rather than observing a no-op. -/
theorem geometry_error_counterexample :
    ui_bigger_action ⟨0, 0, 1920, 1200⟩ ⟨0, 0, 100, 0⟩ = .error .zeroDivisionError := rfl

/-- Claim C7 (amended): when the current rect's height is 0, the resize
operation raises `ZeroDivisionError` (from `wh_ratio`); the operation
performs no move, and the exception propagates to the caller uncaught. -/
theorem resize_zero_height_raises (work rect : Rect) (wd : Int)
    (h : rect.height = 0) :
    resize_op work rect wd = .error .zeroDivisionError := by
  have ha : rect.aspect = .error .zeroDivisionError := by
    simp [Rect.aspect, h]
  rw [resize_op, ha]

/-- Witness for C7 (amended) on a degenerate window rect. -/
theorem resize_zero_height_witness :
    resize_op ⟨0, 0, 1920, 1200⟩ ⟨5, 5, 105, 5⟩ (-10) = .error .zeroDivisionError :=
  resize_zero_height_raises ⟨0, 0, 1920, 1200⟩ ⟨5, 5, 105, 5⟩ (-10) (by decide)

/-- Counterexample to claim C8 as stated: a single poll cycle that raises
(e.g. the OS enumeration call failing) terminates the polling loop with the
exception, which is not a cancellation exit. -/
theorem loop_crash_counterexample :
    loop_run [.error .osError] = some (.crashed .osError)
    ∧ some (LoopExit.crashed .osError) ≠ some LoopExit.cancelled :=
  ⟨rfl, by decide⟩

/-- Claim C8 (amended): the polling loop keeps running across cycles that
complete without raising, and exits either because a cycle observed
cancellation or because a cycle raised — in the latter case the exception
propagates (the loop never suppresses an error and retries).  Every crash
exit carries an error raised by some cycle, and a raising cycle always
crashes the loop. -/
theorem loop_run_characterization (cs : List (Except PyError Bool)) :
    ((loop_run cs = none ∧ ∀ c ∈ cs, c = .ok false)
      ∨ loop_run cs = some .cancelled
      ∨ ∃ e, loop_run cs = some (.crashed e) ∧ .error e ∈ cs)
    ∧ ∀ e cs', loop_run (.error e :: cs') = some (.crashed e) := by
  constructor
  · induction cs with
    | nil => exact Or.inl ⟨rfl, by simp⟩
    | cons c cs ih =>
      match c with
      | .error e => exact Or.inr (Or.inr ⟨e, rfl, List.mem_cons_self _ _⟩)
      | .ok true => exact Or.inr (Or.inl rfl)
      | .ok false =>
        rcases ih with ⟨h1, h2⟩ | hm | ⟨e, h1, h2⟩
        · refine Or.inl ⟨h1, ?_⟩
          intro x hx
          rcases List.mem_cons.mp hx with hx' | hx'
          · rw [hx']
          · exact h2 x hx'
        · exact Or.inr (Or.inl hm)
        · exact Or.inr (Or.inr ⟨e, h1, List.mem_cons_of_mem _ h2⟩)
  · intro e cs'
    rfl

/-- Witness for C8 (amended): a cycle raising `NoSuchProcess` crashes the
loop immediately. -/
theorem loop_run_witness :
    loop_run [.error .noSuchProcess] = some (.crashed .noSuchProcess) :=
  (loop_run_characterization []).2 .noSuchProcess []

/-- One axis of the centering computation stays inside the work interval:
with `0 ≤ W` and `0 ≤ f ≤ 1`, the computed origin is at least `L` and the
origin plus the computed extent is at most `L + W`. -/
theorem center_axis_bounds (L W : Int) (f : ℚ) (hW : 0 ≤ W) (h0 : 0 ≤ f)
    (h1 : f ≤ 1) :
    L ≤ pyInt ((L : ℚ) + ((W : ℚ) - ((pyInt ((W : ℚ) * f) : Int) : ℚ)) / 2)
    ∧ pyInt ((L : ℚ) + ((W : ℚ) - ((pyInt ((W : ℚ) * f) : Int) : ℚ)) / 2)
        + pyInt ((W : ℚ) * f) ≤ L + W := by
  have hWq : (0 : ℚ) ≤ (W : ℚ) := by exact_mod_cast hW
  have hx : (0 : ℚ) ≤ (W : ℚ) * f := mul_nonneg hWq h0
  have htw : pyInt ((W : ℚ) * f) = ⌊(W : ℚ) * f⌋ := pyInt_eq_floor _ hx
  set tw := pyInt ((W : ℚ) * f) with htw_def
  have htw0 : 0 ≤ tw := by
    rw [htw]
    exact Int.floor_nonneg.mpr hx
  have hWf : (W : ℚ) * f ≤ (W : ℚ) := by nlinarith
  have htwW : tw ≤ W := by
    rw [htw]
    calc ⌊(W : ℚ) * f⌋ ≤ ⌊(W : ℚ)⌋ := Int.floor_le_floor hWf
      _ = W := Int.floor_intCast W
  have hcast : ((tw : Int) : ℚ) ≤ (W : ℚ) := by exact_mod_cast htwW
  have hg : (0 : ℚ) ≤ ((W : ℚ) - (tw : ℚ)) / 2 := by
    apply div_nonneg _ (by norm_num)
    linarith
  constructor
  · have h2 := floor_le_pyInt ((L : ℚ) + ((W : ℚ) - (tw : ℚ)) / 2)
    have h3 : ⌊(L : ℚ) + ((W : ℚ) - (tw : ℚ)) / 2⌋
        = L + ⌊((W : ℚ) - (tw : ℚ)) / 2⌋ := by
      rw [add_comm ((L : ℚ)), Int.floor_add_int, add_comm]
    have h4 : 0 ≤ ⌊((W : ℚ) - (tw : ℚ)) / 2⌋ := Int.floor_nonneg.mpr hg
    linarith
  · have h5 := pyInt_le_ceil ((L : ℚ) + ((W : ℚ) - (tw : ℚ)) / 2)
    have h6 : ⌈(L : ℚ) + ((W : ℚ) - (tw : ℚ)) / 2⌉
        = L + ⌈((W : ℚ) - (tw : ℚ)) / 2⌉ := by
      rw [add_comm ((L : ℚ)), Int.ceil_add_int, add_comm]
    have h7 : ⌈((W : ℚ) - (tw : ℚ)) / 2⌉ ≤ W - tw := by
      rw [Int.ceil_le]
      push_cast
      linarith
    linarith

/-- Claim C10: for a work rectangle of nonnegative width and height and a
fill between 0 and 1, the centered target rectangle is contained in the work
area: the computed origin is at or right of / below the work origin, and
origin plus target size stays within the right and bottom edges. -/
theorem center_in_work (work : Rect) (f : ℚ) (hw : 0 ≤ work.width)
    (hh : 0 ≤ work.height) (h0 : 0 ≤ f) (h1 : f ≤ 1) :
    work.left ≤ (center_op work f).1
    ∧ work.top ≤ (center_op work f).2.1
    ∧ (center_op work f).1 + (center_op work f).2.2.1 ≤ work.right
    ∧ (center_op work f).2.1 + (center_op work f).2.2.2 ≤ work.bottom := by
  rw [center_op_components]
  have hx := center_axis_bounds work.left work.width f hw h0 h1
  have hy := center_axis_bounds work.top work.height f hh h0 h1
  refine ⟨hx.1, hy.1, ?_, ?_⟩
  · have h2 := hx.2
    have hr : work.left + work.width = work.right := by
      simp only [Rect.width]
      omega
    dsimp only
    omega
  · have h2 := hy.2
    have hb : work.top + work.height = work.bottom := by
      simp only [Rect.height]
      omega
    dsimp only
    omega

/-- Witness for C10 at the spec's concrete monitor and default fill. -/
theorem center_in_work_witness :
    (⟨0, 0, 1920, 1200⟩ : Rect).left ≤ (center_op ⟨0, 0, 1920, 1200⟩ (4/5)).1
    ∧ (⟨0, 0, 1920, 1200⟩ : Rect).top ≤ (center_op ⟨0, 0, 1920, 1200⟩ (4/5)).2.1
    ∧ (center_op ⟨0, 0, 1920, 1200⟩ (4/5)).1
        + (center_op ⟨0, 0, 1920, 1200⟩ (4/5)).2.2.1
        ≤ (⟨0, 0, 1920, 1200⟩ : Rect).right
    ∧ (center_op ⟨0, 0, 1920, 1200⟩ (4/5)).2.1
        + (center_op ⟨0, 0, 1920, 1200⟩ (4/5)).2.2.2
        ≤ (⟨0, 0, 1920, 1200⟩ : Rect).bottom :=
  center_in_work ⟨0, 0, 1920, 1200⟩ (4/5) (by decide) (by decide)
    (by norm_num) (by norm_num)

end Gwincc
